import Mathlib

/-!
Shallow embedding of `scrape_videos.py`, a concurrent pagination scraper
that harvests listing records from a paginated catalog, merges them with a
previously persisted snapshot and saves the merged result.  Every definition
below is translated from the Python source; the theorems settle the
specification claims about that source.
-/

namespace ScrapeVideos

/-- One catalog entry: the dictionary built per listing item in
`scrape_page` (source lines 150-162). -/
structure Record where
  page : Nat
  id : String
  title : String
  link : String
  thumbnail : String
  views : Int
  comments : Int
  likes : Int
  date : String
  author : String
  summary : String
deriving DecidableEq

/-! ### Python numeric parsing, used by `convert_views` and the field
extraction in `scrape_page`. -/

/-- Numeric value of an ASCII digit character. -/
def digitVal (c : Char) : Nat := c.toNat - 48

/-- Decimal value of a run of digit characters. -/
def natOfDigits (cs : List Char) : Nat :=
  cs.foldl (fun a c => 10 * a + digitVal c) 0

/-- Python `int(str)`: an optional sign followed by a nonempty digit run.
`none` models the `ValueError` raised on anything else.  (Python also
strips surrounding whitespace and allows `_` digit separators; neither
occurs in the scraped count strings.) -/
def pyInt (cs : List Char) : Option Int :=
  match cs with
  | [] => none
  | '-' :: rest =>
      if !rest.isEmpty && rest.all Char.isDigit then
        some (-(natOfDigits rest : Int))
      else none
  | '+' :: rest =>
      if !rest.isEmpty && rest.all Char.isDigit then
        some (natOfDigits rest : Int)
      else none
  | _ => if cs.all Char.isDigit then some (natOfDigits cs : Int) else none

/-- Python `float(str)` on a plain unsigned decimal literal: digits with an
optional fractional part; `"1."` and `".5"` are both accepted.  The value
`mantissa / 10 ^ fracDigits` is represented exactly by the returned pair
`(mantissa, fracDigits)`; `none` models the `ValueError` on anything else.
(Exponent forms, whitespace and inf/nan spellings never occur in the
scraped counts and are left out.)  The rounding of the parsed literal to
an IEEE-754 binary64 value is applied by the consumer, `convert_views`. -/
def pyFloatCore (cs : List Char) : Option (Nat × Nat) :=
  let intPart := cs.takeWhile Char.isDigit
  let rest := cs.dropWhile Char.isDigit
  match rest with
  | [] => if intPart.isEmpty then none else some (natOfDigits intPart, 0)
  | '.' :: frac =>
      if frac.all Char.isDigit && !(intPart.isEmpty && frac.isEmpty) then
        some (natOfDigits intPart * 10 ^ frac.length + natOfDigits frac, frac.length)
      else none
  | _ => none

/-- Python `float(str)` with an optional leading sign; the value is
`signedMantissa / 10 ^ fracDigits`. -/
def pyFloat (cs : List Char) : Option (Int × Nat) :=
  match cs with
  | '-' :: rest => (pyFloatCore rest).map (fun p => (-(p.1 : Int), p.2))
  | '+' :: rest => (pyFloatCore rest).map (fun p => ((p.1 : Int), p.2))
  | _ => (pyFloatCore cs).map (fun p => ((p.1 : Int), p.2))

/-- Round `x / y` (with `y > 0`) to the nearest integer, ties to even —
the rounding step of IEEE-754 round-to-nearest. -/
def rneDiv (x y : Nat) : Nat :=
  let d := x / y
  let r := x % y
  if 2 * r < y then d
  else if y < 2 * r then d + 1
  else if d % 2 == 0 then d
  else d + 1

/-- Largest `e` (up to the fuel) with `b * 2 ^ e ≤ a`; used for the
binade search when `b ≤ a`. -/
def doublings (a : Nat) : Nat → Nat → Nat
  | _, 0 => 0
  | b, fuel + 1 => if b * 2 ≤ a then 1 + doublings a (b * 2) fuel else 0

/-- Smallest `e` (up to the fuel) with `b ≤ a * 2 ^ e`; used for the
binade search when `a < b`. -/
def halvings (b : Nat) : Nat → Nat → Nat
  | _, 0 => 0
  | a, fuel + 1 => if b ≤ a then 0 else 1 + halvings b (a * 2) fuel

/-- Round the positive rational `a / b` to the nearest IEEE-754 binary64
value (round to nearest, ties to even): the result `(m, e)` denotes
`m * 2 ^ (e - 52)` with `2 ^ 52 ≤ m < 2 ^ 53`.  Normal range is assumed;
the fuel of 1200 covers every binary64 binade, far beyond any scraped
count. -/
def roundF64Pos (a b : Nat) : Nat × Int :=
  let e : Int := if b ≤ a then (doublings a b 1200 : Int) else -(halvings b a 1200 : Int)
  let s : Int := 52 - e
  let m := if 0 ≤ s then rneDiv (a * 2 ^ s.toNat) b else rneDiv a (b * 2 ^ (-s).toNat)
  if m == 2 ^ 53 then (2 ^ 52, e + 1) else (m, e)

/-- The binary64 product of the value `p.1 * 2 ^ (p.2 - 52)` with an
integer scale: the scales 1000 and 1000000 are exactly representable, so
Python performs a single rounding of the exact product. -/
def mulScaleF64 (p : Nat × Int) (scale : Nat) : Nat × Int :=
  let s : Int := 52 - p.2
  if 0 ≤ s then roundF64Pos (p.1 * scale) (2 ^ s.toNat)
  else roundF64Pos (p.1 * scale * 2 ^ (-s).toNat) 1

/-- Truncation toward zero of the nonnegative binary64 value
`p.1 * 2 ^ (p.2 - 52)`: Python `int()` on a float magnitude. -/
def truncF64 (p : Nat × Int) : Nat :=
  let s : Int := 52 - p.2
  if 0 ≤ s then p.1 / 2 ^ s.toNat else p.1 * 2 ^ (-s).toNat

/-- Python `int(float(str) * scale)` where the parsed decimal literal is
`num / 10 ^ k`: the literal is rounded to binary64, multiplied by the
exactly-representable scale with one further rounding, and truncated
toward zero, the sign riding along. -/
def intOfFloatMul (num : Int) (k : Nat) (scale : Nat) : Int :=
  if num = 0 then 0
  else
    let r := truncF64 (mulScaleF64 (roundF64Pos num.natAbs (10 ^ k)) scale)
    if num < 0 then -(r : Int) else (r : Int)

/-- `convert_views` (source lines 56-68): lower-case the string and strip
commas; if it contains `k`, parse the string without its `k`s as a float
and compute `int(float * 1000)` in binary64 arithmetic; else if it
contains `m`, likewise with 1000000; otherwise parse it as an integer.
The enclosing `try` turns any parse failure into 0. -/
def convert_views (s : String) : Int :=
  let cs := (s.data.map Char.toLower).filter (fun c => c != ',')
  if cs.contains 'k' then
    match pyFloat (cs.filter (fun c => c != 'k')) with
    | some p => intOfFloatMul p.1 p.2 1000
    | none => 0
  else if cs.contains 'm' then
    match pyFloat (cs.filter (fun c => c != 'm')) with
    | some p => intOfFloatMul p.1 p.2 1000000
    | none => 0
  else
    match pyInt cs with
    | some n => n
    | none => 0

/-! ### The merge step of `main` (source lines 282-292). -/

/-- The ids of a record list, as `main` builds `existing_ids`
(source line 254). -/
def snapshotIds (l : List Record) : List String := l.map (fun r => r.id)

/-- The links of a record list, as `main` builds `existing_links`
(source line 255). -/
def snapshotLinks (l : List Record) : List String := l.map (fun r => r.link)

/-- The merge in `main` (source lines 284-289): start from a copy of the
loaded snapshot, then append exactly those scraped records whose `id` is
not among the snapshot ids and whose `link` is not among the snapshot
links. -/
def mergeData (existing scraped : List Record) : List Record :=
  existing ++ scraped.filter
    (fun r => !(snapshotIds existing).contains r.id &&
              !(snapshotLinks existing).contains r.link)

/-! ### Per-item extraction in `scrape_page` (source lines 95-168). -/

/-- The parse of one structural `div.item.cf` block.  The plain-string
fields fold in their `else ''` fallbacks from the source, which cannot
raise; the three numeric count texts stay optional (`none` = the count
sub-element is absent) because parsing their text can raise. -/
structure Item where
  postId : Option String
  title : String
  link : String
  thumbnail : String
  viewsText : Option String
  commentsText : Option String
  likesText : Option String
  date : String
  author : String
  summary : String
deriving DecidableEq

/-- The comments count (source lines 126-128): 0 when the sub-element is
absent, otherwise Python `int(text)` — `none` models the `ValueError`
raised on malformed text. -/
def commentsVal (it : Item) : Option Int :=
  match it.commentsText with
  | none => some 0
  | some t => pyInt t.data

/-- The likes count (source lines 130-133), same shape as `commentsVal`. -/
def likesVal (it : Item) : Option Int :=
  match it.likesText with
  | none => some 0
  | some t => pyInt t.data

/-- The views count (source lines 120-123): 0 when the sub-element is
absent, otherwise `convert_views`, which swallows its own parse errors. -/
def viewsVal (it : Item) : Int :=
  match it.viewsText with
  | none => 0
  | some t => convert_views t

/-- One iteration of the item loop in `scrape_page`: `none` means the item
contributes no record — either no post id was recovered (the `continue` at
line 103) or a numeric parse raised and the per-item handler (lines
166-168) dropped the item. -/
def processItem (pg : Nat) (it : Item) : Option Record :=
  match it.postId with
  | none => none
  | some pid =>
    match commentsVal it, likesVal it with
    | some comments, some likes =>
        some { page := pg, id := pid, title := it.title, link := it.link,
               thumbnail := it.thumbnail, views := viewsVal it,
               comments := comments, likes := likes, date := it.date,
               author := it.author, summary := it.summary }
    | _, _ => none

/-! ### `scrape_page` as a transition on the shared scraper state. -/

/-- Outcome of `requests.get` + `raise_for_status` + the structural-item
search: `fail` is any network error, timeout or non-2xx status (an
exception before the item scan); `ok items` is a fetched page parsed into
its `div.item.cf` blocks. -/
inductive FetchResult where
  | fail : FetchResult
  | ok : List Item → FetchResult
deriving DecidableEq

/-- The shared mutable scraper state: `all_video_data` and
`stop_scraping` (source lines 52-54). -/
structure ScrapeState where
  data : List Record
  stop : Bool
deriving DecidableEq

/-- `scrape_page` (source lines 70-178) as a state transition.  A fetch
failure is caught by the outer handler (lines 176-178): the state is
untouched.  A fetched page with zero structural items sets the stop flag
and returns (lines 87-92).  Otherwise the surviving records are appended
to the accumulator (lines 94-172). -/
def scrape_page (pg : Nat) (res : FetchResult) (st : ScrapeState) : ScrapeState :=
  match res with
  | FetchResult.fail => st
  | FetchResult.ok items =>
      if items.isEmpty then
        { st with stop := true }
      else
        { st with data := st.data ++ items.filterMap (processItem pg) }

/-! ### The worker pool (source lines 180-194, 267-280) as a small-step
interleaving semantics.  The `while not stop_scraping` check (line 183)
and `page_queue.get_nowait()` (line 185) are separate, unsynchronized
operations — `data_lock` is only held inside `scrape_page` — so they are
modelled as separate steps with an intermediate `passed` worker state.
This admits the real interleaving in which a worker that has already
passed its check dequeues and fetches a page after another worker has
set the stop flag. -/

/-- What one worker thread is doing: at the loop top about to test the
stop flag, past the test and about to call `get_nowait`, holding the
dequeued page inside `scrape_page`, or exited. -/
inductive WStatus where
  | idle : WStatus
  | passed : WStatus
  | busy : Nat → WStatus
  | done : WStatus
deriving DecidableEq

/-- The whole process state: the page queue, the shared scraper state and
the worker threads. -/
structure SysState where
  queue : List Nat
  scr : ScrapeState
  workers : List WStatus
deriving DecidableEq

/-- Interleaved execution steps of the worker pool, parametrised by the
network environment `env` giving each page's fetch outcome.
`checkPass`: a worker reads the stop flag as unset at the loop guard
(line 183) and proceeds.  `checkStop`: the guard reads the flag as set
and the worker exits the loop.  `deq`: `get_nowait` (line 185) returns a
page — with no further look at the flag.  `deqEmpty`: `get_nowait` raises
`queue.Empty` and the worker exits (lines 189-191).  `finish`: the worker
completes `scrape_page` on its held page (line 187). -/
inductive Step (env : Nat → FetchResult) : SysState → SysState → Prop where
  | checkPass (s : SysState) (i : Nat) :
      s.workers[i]? = some WStatus.idle → s.scr.stop = false →
      Step env s { queue := s.queue, scr := s.scr,
                   workers := s.workers.set i WStatus.passed }
  | checkStop (s : SysState) (i : Nat) :
      s.workers[i]? = some WStatus.idle → s.scr.stop = true →
      Step env s { queue := s.queue, scr := s.scr,
                   workers := s.workers.set i WStatus.done }
  | deq (s : SysState) (i pg : Nat) (rest : List Nat) :
      s.workers[i]? = some WStatus.passed →
      s.queue = pg :: rest →
      Step env s { queue := rest, scr := s.scr,
                   workers := s.workers.set i (WStatus.busy pg) }
  | deqEmpty (s : SysState) (i : Nat) :
      s.workers[i]? = some WStatus.passed → s.queue = [] →
      Step env s { queue := s.queue, scr := s.scr,
                   workers := s.workers.set i WStatus.done }
  | finish (s : SysState) (i pg : Nat) :
      s.workers[i]? = some (WStatus.busy pg) →
      Step env s { queue := s.queue, scr := scrape_page pg (env pg) s.scr,
                   workers := s.workers.set i WStatus.idle }

/-! ### The page "planner" of `main` (source lines 258-265). -/

/-- `max_pages` (source line 261). -/
def maxPages : Nat := 1000

/-- The enqueue loop of `main`: `page_num = 1; while page_num <= max_pages
and not stop_scraping: put(page_num); page_num += 1`, unrolled on a fuel
argument that bounds the remaining iterations. -/
def enqueueLoop (stop : Bool) : Nat → Nat → List Nat
  | 0, _ => []
  | fuel + 1, p =>
      if p ≤ maxPages && !stop then p :: enqueueLoop stop fuel (p + 1) else []

/-- The pages `main` plans to crawl, as a function of the loaded snapshot.
`main` computes `existing_ids`/`existing_links` from the snapshot (lines
253-255) but the enqueue loop never consults them, and `stop_scraping` is
still `False` because no worker has started. -/
def plannedPages (_existing : List Record) : List Nat :=
  enqueueLoop false maxPages 1

/-! ### Persistence (`save_data`, source lines 212-248) and the exit
status of the run. -/

/-- The sequence of records written to the primary store `DATA_TXT`:
`json.dump(data, f)` at line 217 serializes the list exactly in the order
it was given, before any sorting happens. -/
def savePrimary (data : List Record) : List Record := data

/-- `pd.to_numeric(df['id'], errors='coerce')` on one id (line 224): a
number parsed like a Python float, or `none` for the `NaN` placeholder. -/
def idNum (s : String) : Option (Int × Nat) := pyFloat s.data

/-- Comparison of two exact scaled values `a.1 / 10 ^ a.2 ≤ b.1 / 10 ^ b.2`
by cross-multiplication. -/
def scaledLe (a b : Int × Nat) : Bool :=
  decide (a.1 * (10 : Int) ^ b.2 ≤ b.1 * (10 : Int) ^ a.2)

/-- Key order on coerced ids for the `ascending=False` sort column:
descending numeric order, with the `NaN` of an unparseable id sorted
last (pandas `na_position` default). -/
def idKeyLe (a b : Option (Int × Nat)) : Bool :=
  match a, b with
  | some x, some y => scaledLe y x
  | some _, none => true
  | none, some _ => false
  | none, none => true

/-- The row order of `df.sort_values(by=['page', 'id'],
ascending=[True, False])` (line 225): page ascending, then coerced id
descending. -/
def rowLe (a b : Record) : Bool :=
  Nat.blt a.page b.page || (a.page == b.page && idKeyLe (idNum a.id) (idNum b.id))

/-- `rowLe` as a relation. -/
def rowLE : Record → Record → Prop := fun a b => rowLe a b = true

instance : DecidableRel rowLE := fun a b => by unfold rowLE; infer_instance

/-- The row sequence of the sorted DataFrame that `save_data` writes to
the tabular export and the spreadsheet (lines 222-241), modelled as a
sort of the input records by `rowLe`. -/
def csvRows (data : List Record) : List Record :=
  List.insertionSort rowLE data

/-- Which side effects `save_data` performed, in source order. -/
structure SaveOutcome where
  jsonWritten : Bool
  csvWritten : Bool
  sheetUpdated : Bool
deriving DecidableEq

/-- The body of `save_data` as a function of which collaborators succeed:
`jsonOk` = the `DATA_TXT` write, `csvOk` = the DataFrame build and
`TEMP_CSV` write, `sheetOk` = the spreadsheet push.  `Except.error` is an
exception reaching the outer handler at line 246; its payload records the
effects already performed.  The spreadsheet block has its own handler
(lines 233-244), so a sheet failure never raises. -/
def saveDataBody (jsonOk csvOk sheetOk : Bool) : Except SaveOutcome SaveOutcome :=
  if !jsonOk then
    Except.error { jsonWritten := false, csvWritten := false, sheetUpdated := false }
  else if !csvOk then
    Except.error { jsonWritten := true, csvWritten := false, sheetUpdated := false }
  else
    Except.ok { jsonWritten := true, csvWritten := true, sheetUpdated := sheetOk }

/-- `save_data` as its caller sees it: the outer handler (lines 246-248)
logs and swallows every exception, so the call always returns normally
with whatever effects were performed. -/
def saveDataRun (jsonOk csvOk sheetOk : Bool) : SaveOutcome :=
  match saveDataBody jsonOk csvOk sheetOk with
  | Except.ok o => o
  | Except.error o => o

/-- Exit status of the whole run (`true` = success) as a function of the
persistence outcomes: `save_data` swallows its exceptions, `main` returns
normally, and the `__main__` guard (lines 295-300) catches and logs
anything escaping `main` without re-raising, so both branches exit
successfully. -/
def runExitSuccess (jsonOk csvOk sheetOk : Bool) : Bool :=
  match saveDataBody jsonOk csvOk sheetOk with
  | Except.ok _ => true
  | Except.error _ => true

/-! ### Concrete data used by counterexamples and witnesses. -/

/-- A record as loaded from the prior snapshot. -/
def recOld : Record :=
  { page := 1, id := "70968", title := "t", link := "L1", thumbnail := "",
    views := 1, comments := 0, likes := 0, date := "", author := "", summary := "" }

/-- The same catalog entry rescraped in this run with a fresh view count. -/
def recNew : Record := { recOld with views := 2 }

/-- A freshly scraped record with an unseen id, first sighting. -/
def recA : Record :=
  { page := 1, id := "1", title := "a", link := "LA", thumbnail := "",
    views := 3, comments := 0, likes := 0, date := "", author := "", summary := "" }

/-- The same unseen id scraped again on a later page in the same run. -/
def recB : Record :=
  { page := 2, id := "1", title := "b", link := "LB", thumbnail := "",
    views := 5, comments := 0, likes := 0, date := "", author := "", summary := "" }

/-- A scraped record with a second distinct unseen id. -/
def recC : Record :=
  { page := 1, id := "2", title := "c", link := "LC", thumbnail := "",
    views := 0, comments := 0, likes := 0, date := "", author := "", summary := "" }

/-- A listing item whose comments count text is not an integer; all other
sub-elements are present and well-formed. -/
def badItem : Item :=
  { postId := some "9", title := "t", link := "L", thumbnail := "",
    viewsText := some "1.5k", commentsText := some "abc",
    likesText := some "4", date := "", author := "", summary := "" }

/-- The same item with a well-formed comments count. -/
def goodItem : Item := { badItem with commentsText := some "3" }

/-- A concrete network environment where every page is empty. -/
def env0 : Nat → FetchResult := fun _ => FetchResult.ok []

/-- A state whose single worker has already passed the stop check while
the flag is now set and page 5 is still queued. -/
def sRace0 : SysState :=
  { queue := [5], scr := { data := [], stop := true },
    workers := [WStatus.passed] }

/-- `sRace0` after the worker dequeues page 5 — despite the set flag. -/
def sRace1 : SysState :=
  { queue := [], scr := { data := [], stop := true },
    workers := [WStatus.busy 5] }

/-- `sRace1` after the worker fetches page 5 (empty over `env0`). -/
def sRace2 : SysState :=
  { queue := [], scr := { data := [], stop := true },
    workers := [WStatus.idle] }

/-- A concrete execution trace of one worker checking the unset flag,
dequeuing page 1 and finishing it (the empty page sets the flag). -/
def wtrace : List SysState :=
  [{ queue := [1], scr := { data := [], stop := false },
     workers := [WStatus.idle] },
   { queue := [1], scr := { data := [], stop := false },
     workers := [WStatus.passed] },
   { queue := [], scr := { data := [], stop := false },
     workers := [WStatus.busy 1] },
   { queue := [], scr := { data := [], stop := true },
     workers := [WStatus.idle] }]

/-! ## Helper lemmas -/

theorem scaledLe_total (x y : Int × Nat) :
    scaledLe x y = true ∨ scaledLe y x = true := by
  unfold scaledLe
  rcases Int.le_total (x.1 * (10 : Int) ^ y.2) (y.1 * (10 : Int) ^ x.2) with h | h
  · exact Or.inl (decide_eq_true h)
  · exact Or.inr (decide_eq_true h)

theorem scaledLe_trans {x y z : Int × Nat} (h1 : scaledLe x y = true)
    (h2 : scaledLe y z = true) : scaledLe x z = true := by
  unfold scaledLe at h1 h2 ⊢
  rw [decide_eq_true_eq] at h1 h2 ⊢
  have hy : (0 : Int) < 10 ^ y.2 := pow_pos (by norm_num) _
  have hz : (0 : Int) ≤ 10 ^ z.2 := le_of_lt (pow_pos (by norm_num) _)
  have hx : (0 : Int) ≤ 10 ^ x.2 := le_of_lt (pow_pos (by norm_num) _)
  have A := mul_le_mul_of_nonneg_right h1 hz
  have B := mul_le_mul_of_nonneg_right h2 hx
  have C : x.1 * 10 ^ z.2 * 10 ^ y.2 ≤ z.1 * 10 ^ x.2 * 10 ^ y.2 := by
    calc x.1 * 10 ^ z.2 * 10 ^ y.2 = x.1 * 10 ^ y.2 * 10 ^ z.2 := by ring
    _ ≤ y.1 * 10 ^ x.2 * 10 ^ z.2 := A
    _ = y.1 * 10 ^ z.2 * 10 ^ x.2 := by ring
    _ ≤ z.1 * 10 ^ y.2 * 10 ^ x.2 := B
    _ = z.1 * 10 ^ x.2 * 10 ^ y.2 := by ring
  exact le_of_mul_le_mul_right C hy

theorem idKeyLe_total (x y : Option (Int × Nat)) :
    idKeyLe x y = true ∨ idKeyLe y x = true := by
  cases x with
  | none => cases y with
    | none => exact Or.inl rfl
    | some b => exact Or.inr rfl
  | some a => cases y with
    | none => exact Or.inl rfl
    | some b => exact (scaledLe_total b a).imp id id

theorem idKeyLe_trans {x y z : Option (Int × Nat)} (h1 : idKeyLe x y = true)
    (h2 : idKeyLe y z = true) : idKeyLe x z = true := by
  cases x with
  | none => cases y with
    | none => exact h2
    | some b => cases h1
  | some a => cases z with
    | none => rfl
    | some c =>
      cases y with
      | none => cases h2
      | some b => exact scaledLe_trans h2 h1

instance : IsTotal Record rowLE := by
  constructor
  intro a b
  unfold rowLE rowLe
  simp only [Bool.or_eq_true, Bool.and_eq_true, Nat.blt_eq, beq_iff_eq]
  rcases Nat.lt_trichotomy a.page b.page with h | h | h
  · exact Or.inl (Or.inl h)
  · rcases idKeyLe_total (idNum a.id) (idNum b.id) with hk | hk
    · exact Or.inl (Or.inr ⟨h, hk⟩)
    · exact Or.inr (Or.inr ⟨h.symm, hk⟩)
  · exact Or.inr (Or.inl h)

instance : IsTrans Record rowLE := by
  constructor
  intro a b c hab hbc
  unfold rowLE rowLe at hab hbc ⊢
  simp only [Bool.or_eq_true, Bool.and_eq_true, Nat.blt_eq, beq_iff_eq] at hab hbc ⊢
  rcases hab with h1 | ⟨e1, k1⟩
  · rcases hbc with h2 | ⟨e2, _⟩
    · exact Or.inl (lt_trans h1 h2)
    · exact Or.inl (e2 ▸ h1)
  · rcases hbc with h2 | ⟨e2, k2⟩
    · exact Or.inl (e1 ▸ h2)
    · exact Or.inr ⟨e1.trans e2, idKeyLe_trans k1 k2⟩

theorem merge_filter_new_nil (existing scraped : List Record) (i : String)
    (hi : i ∈ snapshotIds existing) :
    (scraped.filter
        (fun r => !(snapshotIds existing).contains r.id &&
                  !(snapshotLinks existing).contains r.link)).filter
      (fun r => r.id == i) = [] := by
  rw [List.filter_eq_nil_iff]
  intro r hr hbeq
  have hmem := List.mem_filter.mp hr
  have h2 := (Bool.and_eq_true _ _).mp hmem.2
  have hid : ∀ x ∈ existing, ¬ x.id = r.id := by
    simpa [snapshotIds] using h2.1
  have hri : r.id = i := by simpa using hbeq
  obtain ⟨x, hx, hxid⟩ := List.mem_map.mp hi
  exact hid x hx (hxid.trans hri.symm)

/-! ## Claims -/

/-- C7 counterexample: the normalizer does not map "128.67K" to 128670:
the binary64 value of "128.67" is slightly below the decimal 128.67, its
float product with 1000 rounds to just under 128670, and `int()`
truncation yields 128669. -/
theorem claim_C7_counterexample :
    convert_views "128.67K" = 128669 ∧ convert_views "128.67K" ≠ 128670 := by
  decide

/-- C7 (amended): the view-count normalizer maps "1,234" to 1234,
"128.67K" to 128669 (binary64 arithmetic truncates just short of
128670), "1.5M" to 1500000 and "garbage" to 0; after lower-casing and
comma-stripping, a string without a `k` or `m` whose integer parse fails
yields 0 rather than raising. -/
theorem claim_C7_convert_views :
    convert_views "1,234" = 1234 ∧
    convert_views "128.67K" = 128669 ∧
    convert_views "1.5M" = 1500000 ∧
    convert_views "garbage" = 0 ∧
    (∀ s : String,
      ((s.data.map Char.toLower).filter (fun c => c != ',')).contains 'k' = false →
      ((s.data.map Char.toLower).filter (fun c => c != ',')).contains 'm' = false →
      pyInt ((s.data.map Char.toLower).filter (fun c => c != ',')) = none →
      convert_views s = 0) := by
  refine ⟨by decide, by decide, by decide, by decide, fun s hk hm hp => ?_⟩
  simp only [convert_views, hk, hm, hp, Bool.false_eq_true, if_false]

/-- C7 witness: a concrete unparseable string with no unit suffix. -/
theorem claim_C7_witness : convert_views "xyz" = 0 :=
  claim_C7_convert_views.2.2.2.2 "xyz" (by decide) (by decide) (by decide)

/-- C1 counterexample: rescraping id "70968" with views 2 leaves the prior
snapshot record with views 1 as the only merged record at that id; the
scraped field values are discarded, not inserted. -/
theorem claim_C1_counterexample :
    mergeData [recOld] [recNew] = [recOld] ∧
    recNew.id = recOld.id ∧ recOld.views = 1 ∧ recNew.views = 2 := by
  decide

/-- C1 (amended): the merge keeps the prior snapshot's values — for any id
already present in the snapshot, the merged dataset's records at that id
are exactly the prior snapshot's records at that id, and scraped values at
such an id are never included. -/
theorem claim_C1_merge_keeps_prior (existing scraped : List Record) (i : String)
    (hi : i ∈ snapshotIds existing) :
    (mergeData existing scraped).filter (fun r => r.id == i) =
      existing.filter (fun r => r.id == i) := by
  unfold mergeData
  rw [List.filter_append, merge_filter_new_nil existing scraped i hi,
    List.append_nil]

/-- C1 witness: the amended statement at the concrete rescrape. -/
theorem claim_C1_witness :
    (mergeData [recOld] [recNew]).filter (fun r => r.id == "70968") =
      [recOld].filter (fun r => r.id == "70968") :=
  claim_C1_merge_keeps_prior [recOld] [recNew] "70968" (by decide)

/-- C2 counterexample: the same unseen id scraped on two pages of one run
is appended twice — the merged dataset holds two records with id "1". -/
theorem claim_C2_counterexample :
    ((mergeData [] [recA, recB]).filter (fun r => r.id == "1")).length = 2 := by
  decide

/-- C2 (amended): id uniqueness of the merged dataset holds only when the
prior snapshot's ids are already unique and the scraped records' ids are
pairwise distinct; the merge filters scraped records against the snapshot
ids and links but never against each other. -/
theorem claim_C2_merge_ids_nodup (existing scraped : List Record)
    (he : (snapshotIds existing).Nodup)
    (hs : (snapshotIds scraped).Nodup) :
    (snapshotIds (mergeData existing scraped)).Nodup := by
  unfold mergeData
  show (snapshotIds (_ ++ _)).Nodup
  unfold snapshotIds
  rw [List.map_append, List.nodup_append]
  refine ⟨he, ?_, ?_⟩
  · exact hs.sublist (List.Sublist.map _ (List.filter_sublist scraped))
  · rw [List.disjoint_left]
    intro a ha hb
    obtain ⟨r, hr, hra⟩ := List.mem_map.mp hb
    have hmem := List.mem_filter.mp hr
    have h2 := (Bool.and_eq_true _ _).mp hmem.2
    have hid : ∀ x ∈ existing, ¬ x.id = r.id := by
      simpa [snapshotIds] using h2.1
    obtain ⟨x, hx, hxa⟩ := List.mem_map.mp ha
    exact hid x hx (hxa.trans hra.symm)

/-- C2 witness: the amended statement at a concrete merge of two distinct
new ids into a singleton snapshot. -/
theorem claim_C2_witness :
    (snapshotIds (mergeData [recOld] [recA, recC])).Nodup :=
  claim_C2_merge_ids_nodup [recOld] [recA, recC] (by decide) (by decide)

/-- C10: the merge step never modifies or removes a loaded snapshot
record: the merged output starts with the prior dataset verbatim, so
every prior record appears in the merged dataset with all of its original
field values. -/
theorem claim_C10_merge_preserves_snapshot (existing scraped : List Record) :
    (mergeData existing scraped).take existing.length = existing ∧
    ∀ r, r ∈ existing → r ∈ mergeData existing scraped := by
  constructor
  · unfold mergeData
    exact List.take_left existing _
  · intro r hr
    unfold mergeData
    exact List.mem_append_left _ hr

/-- C10 witness: the concrete snapshot record survives the merge. -/
theorem claim_C10_witness : recOld ∈ mergeData [recOld] [recNew] :=
  (claim_C10_merge_preserves_snapshot [recOld] [recNew]).2 recOld (by decide)

/-- C3 counterexample: the primary store receives the records exactly in
merge order; with the input [page 2 record, page 1 record] the written
JSON sequence opens with the page-2 record, so it is not sorted by page
ascending. -/
theorem claim_C3_counterexample :
    savePrimary [recB, recA] = [recB, recA] ∧
    ¬ List.Sorted rowLE (savePrimary [recB, recA]) := by
  constructor
  · rfl
  · decide

/-- C3 (amended): the JSON primary store is written in input order,
unsorted; it is the tabular export and spreadsheet rows that are sorted
by page ascending and, within equal page, by numerically-coerced id
descending. -/
theorem claim_C3_save_order (data : List Record) :
    savePrimary data = data ∧ List.Sorted rowLE (csvRows data) :=
  ⟨rfl, List.sorted_insertionSort rowLE data⟩

/-- C6 counterexample: no pair of distinct page counts can describe the
planner as shallow-refresh versus full-crawl, because `plannedPages`
ignores the snapshot entirely: both a fully-known page 1 and a page 1
with an unseen id lead to the same planned page count. -/
theorem claim_C6_counterexample :
    ¬ ∃ shallow ceiling : Nat, shallow ≠ ceiling ∧
      ∀ existing page1 : List Record,
        ((∀ r ∈ page1, r.id ∈ snapshotIds existing) →
            (plannedPages existing).length = shallow) ∧
        ((∃ r ∈ page1, r.id ∉ snapshotIds existing) →
            (plannedPages existing).length = ceiling) := by
  rintro ⟨sh, ce, hne, h⟩
  have h1 : (plannedPages []).length = sh := (h [] []).1 (by simp)
  have h2 : (plannedPages []).length = ce :=
    (h [] [recA]).2 ⟨recA, by simp, by simp [snapshotIds]⟩
  exact hne (h1.symm.trans h2)

set_option maxRecDepth 100000 in
/-- C6 (amended): the planner is not change-aware: `main` enqueues pages
1 through 1000 (the full-crawl ceiling) unconditionally, with no separate
page-1 probe, and the loaded snapshot has no effect on the planned page
count. -/
theorem claim_C6_planner_constant (existing : List Record) :
    plannedPages existing = (List.range maxPages).map (fun k => k + 1) ∧
    (plannedPages existing).length = maxPages := by
  have h0 : plannedPages existing = enqueueLoop false maxPages 1 := rfl
  have h1 : enqueueLoop false maxPages 1 =
      (List.range maxPages).map (fun k => k + 1) := by decide
  refine ⟨h0.trans h1, ?_⟩
  rw [h0, h1, List.length_map, List.length_range]

/-- C9 counterexample: with the primary-store write failing and every
other collaborator healthy, the run still exits successfully (and nothing
at all is persisted); the write failure is not fatal. -/
theorem claim_C9_counterexample :
    runExitSuccess false true true = true ∧
    saveDataRun false true true =
      { jsonWritten := false, csvWritten := false, sheetUpdated := false } := by
  decide

/-- C9 (amended): a primary-store write failure is caught and logged
inside `save_data`; the run continues and exits successfully, with the
tabular export and spreadsheet push skipped.  A spreadsheet publish
failure leaves the primary-store write intact and never changes the exit
status. -/
theorem claim_C9_save_failure_policy (jsonOk csvOk sheetOk : Bool) :
    runExitSuccess jsonOk csvOk sheetOk = true ∧
    (jsonOk = false → saveDataRun jsonOk csvOk sheetOk =
      { jsonWritten := false, csvWritten := false, sheetUpdated := false }) ∧
    (saveDataRun jsonOk csvOk false).jsonWritten =
      (saveDataRun jsonOk csvOk true).jsonWritten := by
  cases jsonOk <;> cases csvOk <;> cases sheetOk <;> exact ⟨rfl, by decide, rfl⟩

/-- C9 witness: the amended statement at the concrete failing write. -/
theorem claim_C9_witness :
    saveDataRun false true true =
      { jsonWritten := false, csvWritten := false, sheetUpdated := false } :=
  (claim_C9_save_failure_policy false true true).2.1 rfl

/-- C8 counterexample: an item whose comments count text is "abc" is
dropped entirely — `int("abc")` raises and the per-item handler skips the
whole record — while the identical item with comments text "3" yields a
record; a malformed comments count does not default to 0. -/
theorem claim_C8_counterexample :
    processItem 1 badItem = none ∧
    processItem 1 goodItem =
      some { page := 1, id := "9", title := "t", link := "L", thumbnail := "",
             views := 1500, comments := 3, likes := 4, date := "",
             author := "", summary := "" } := by
  decide

/-- C8 (amended): a missing numeric sub-element yields 0 for that field
and a malformed views text yields 0 through the normalizer, without
dropping the record; but an item yields no record exactly when it has no
post id or when its comments or likes text is present and fails Python
integer parsing. -/
theorem claim_C8_numeric_defaults (pg : Nat) (it : Item) :
    (∀ r, processItem pg it = some r →
      (it.viewsText = none → r.views = 0) ∧
      (it.commentsText = none → r.comments = 0) ∧
      (it.likesText = none → r.likes = 0) ∧
      (∀ t, it.viewsText = some t → r.views = convert_views t)) ∧
    (processItem pg it = none ↔
      it.postId = none ∨ commentsVal it = none ∨ likesVal it = none) := by
  constructor
  · intro r hr
    unfold processItem at hr
    cases hpid : it.postId with
    | none => rw [hpid] at hr; cases hr
    | some pid =>
      rw [hpid] at hr
      cases hc : commentsVal it with
      | none => rw [hc] at hr; cases hr
      | some c =>
        cases hl : likesVal it with
        | none => rw [hc, hl] at hr; cases hr
        | some l =>
          rw [hc, hl] at hr
          have hrec := Option.some.inj hr
          refine ⟨?_, ?_, ?_, ?_⟩
          · intro hvt
            rw [← hrec]
            simp [viewsVal, hvt]
          · intro hct
            rw [← hrec]
            unfold commentsVal at hc
            rw [hct] at hc
            simpa using hc.symm
          · intro hlt
            rw [← hrec]
            unfold likesVal at hl
            rw [hlt] at hl
            simpa using hl.symm
          · intro t hvt
            rw [← hrec]
            simp [viewsVal, hvt]
  · unfold processItem
    cases hpid : it.postId with
    | none => simp
    | some pid =>
      cases hc : commentsVal it with
      | none => simp
      | some c =>
        cases hl : likesVal it with
        | none => simp
        | some l => simp

/-- C8 witness: the amended statement at the concrete well-formed item,
whose views come straight from the normalizer. -/
theorem claim_C8_witness :
    ({ page := 1, id := "9", title := "t", link := "L", thumbnail := "",
       views := 1500, comments := 3, likes := 4, date := "", author := "",
       summary := "" } : Record).views = convert_views "1.5k" :=
  ((claim_C8_numeric_defaults 1 goodItem).1
    { page := 1, id := "9", title := "t", link := "L", thumbnail := "",
      views := 1500, comments := 3, likes := 4, date := "", author := "",
      summary := "" } (by decide)).2.2.2 "1.5k" rfl

/-- C4: a fetch failure (network error, timeout or non-2xx status) leaves
the scraper state untouched — the stop flag keeps its value and no
records are added — while a successfully fetched page sets the stop flag
only if its parse yields zero structural item blocks, and always does so
when it yields zero blocks. -/
theorem claim_C4_fetch_failure_not_terminal (pg : Nat) (st : ScrapeState) :
    scrape_page pg FetchResult.fail st = st ∧
    (∀ items : List Item,
      (scrape_page pg (FetchResult.ok items) st).stop = true →
      st.stop = true ∨ items = []) ∧
    (∀ items : List Item, items = [] →
      (scrape_page pg (FetchResult.ok items) st).stop = true) := by
  refine ⟨rfl, ?_, ?_⟩
  · intro items h
    unfold scrape_page at h
    cases items with
    | nil => exact Or.inr rfl
    | cons a l => exact Or.inl h
  · intro items h
    subst h
    simp [scrape_page]

/-- C4 witness: the concrete claim at an empty page over a fresh state. -/
theorem claim_C4_witness :
    ({ data := [], stop := false } : ScrapeState).stop = true ∨
      ([] : List Item) = [] :=
  (claim_C4_fetch_failure_not_terminal 1 { data := [], stop := false }).2.1
    [] (by decide)

theorem scrape_page_stop_mono (pg : Nat) (res : FetchResult) (st : ScrapeState)
    (h : st.stop = true) : (scrape_page pg res st).stop = true := by
  unfold scrape_page
  cases res with
  | fail => exact h
  | ok items => cases items with
    | nil => rfl
    | cons a l => exact h

theorem scrape_page_stop_flip (pg : Nat) (res : FetchResult) (st : ScrapeState)
    (h0 : st.stop = false) (h1 : (scrape_page pg res st).stop = true) :
    res = FetchResult.ok [] := by
  unfold scrape_page at h1
  cases res with
  | fail => rw [h0] at h1; cases h1
  | ok items => cases items with
    | nil => rfl
    | cons a l => rw [h0] at h1; cases h1

theorem step_stop_mono {env : Nat → FetchResult} {s s2 : SysState}
    (h : Step env s s2) (hs : s.scr.stop = true) : s2.scr.stop = true := by
  cases h with
  | checkPass i hw hstop => exact hs
  | checkStop i hw hstop => exact hs
  | deq i pg rest hw hq => exact hs
  | deqEmpty i hw hq => exact hs
  | finish i pg hw => exact scrape_page_stop_mono _ _ _ hs

theorem step_flip {env : Nat → FetchResult} {s s2 : SysState}
    (h : Step env s s2) (h0 : s.scr.stop = false) (h1 : s2.scr.stop = true) :
    ∃ (i pg : Nat), s.workers[i]? = some (WStatus.busy pg) ∧
      env pg = FetchResult.ok [] := by
  cases h with
  | checkPass i hw hstop => rw [h0] at h1; cases h1
  | checkStop i hw hstop => rw [h0] at hstop; cases hstop
  | deq i pg rest hw hq => rw [h0] at h1; cases h1
  | deqEmpty i hw hq => rw [h0] at h1; cases h1
  | finish i pg hw =>
      exact ⟨i, pg, hw, scrape_page_stop_flip pg (env pg) s.scr h0 h1⟩

theorem step_check_passed {env : Nat → FetchResult} {s s2 : SysState}
    {i : Nat} (h : Step env s s2) (hw : s.workers[i]? = some WStatus.idle)
    (hp : s2.workers[i]? = some WStatus.passed) : s.scr.stop = false := by
  cases h with
  | checkPass k hk hstop =>
      rcases eq_or_ne k i with rfl | hne
      · exact hstop
      · simp [List.getElem?_set, hne, hw] at hp
  | checkStop k hk hstop =>
      rcases eq_or_ne k i with rfl | hne
      · have hklen : k < s.workers.length := (List.getElem?_eq_some.mp hk).1
        simp [List.getElem?_set, hklen] at hp
      · simp [List.getElem?_set, hne, hw] at hp
  | deq k pg rest hk hq =>
      rcases eq_or_ne k i with rfl | hne
      · rw [hw] at hk
        simp at hk
      · simp [List.getElem?_set, hne, hw] at hp
  | deqEmpty k hk hq =>
      rcases eq_or_ne k i with rfl | hne
      · rw [hw] at hk
        simp at hk
      · simp [List.getElem?_set, hne, hw] at hp
  | finish k pg hk =>
      rcases eq_or_ne k i with rfl | hne
      · have hklen : k < s.workers.length := (List.getElem?_eq_some.mp hk).1
        simp [List.getElem?_set, hklen] at hp
      · simp [List.getElem?_set, hne, hw] at hp

theorem chain_rel {α : Type _} {R : α → α → Prop} :
    ∀ {l : List α}, List.Chain' R l →
      ∀ (i : Nat) (a b : α), l[i]? = some a → l[i + 1]? = some b → R a b := by
  intro l
  induction l with
  | nil => intro _ i a b ha _; cases ha
  | cons x xs ih =>
    intro hc i a b ha hb
    have hc2 := List.chain'_cons'.mp hc
    cases i with
    | zero =>
      rw [List.getElem?_cons_zero] at ha
      rw [List.getElem?_cons_succ] at hb
      cases Option.some.inj ha
      refine hc2.1 b ?_
      rw [List.head?_eq_getElem?]
      exact hb
    | succ j =>
      rw [List.getElem?_cons_succ] at ha
      rw [List.getElem?_cons_succ] at hb
      exact ih hc2.2 j a b ha hb

theorem trace_stop_mono {env : Nat → FetchResult} {ts : List SysState}
    (hc : List.Chain' (Step env) ts) :
    ∀ (i j : Nat) (si sj : SysState), i ≤ j →
      ts[i]? = some si → ts[j]? = some sj →
      si.scr.stop = true → sj.scr.stop = true := by
  intro i j si sj hij ha hb hs
  obtain ⟨d, rfl⟩ : ∃ d, j = i + d := ⟨j - i, by omega⟩
  clear hij
  revert sj
  induction d with
  | zero =>
    intro sj hb
    have hb2 : ts[i]? = some sj := hb
    rw [ha] at hb2
    cases Option.some.inj hb2
    exact hs
  | succ d ihd =>
    intro sj hb
    have hlt : i + d < ts.length := by
      have hlt1 := (List.getElem?_eq_some.mp hb).1
      omega
    have hmid : ts[i + d]? = some ts[i + d] := List.getElem?_eq_getElem hlt
    have hstep : Step env ts[i + d] sj := chain_rel hc (i + d) _ _ hmid hb
    exact step_stop_mono hstep (ihd ts[i + d] hmid)

/-- C5 counterexample: dispatch is not disabled by the set stop flag — a
worker that passed its unsynchronized loop check before the flag was set
still dequeues page 5 and fetches it afterwards.  The two steps below are
legal `Step`s out of a state whose flag is already true, and they drain
the queue: "no further page dispatch occurs" is false of the code. -/
theorem claim_C5_counterexample :
    List.Chain' (Step env0) [sRace0, sRace1, sRace2] ∧
    sRace0.scr.stop = true ∧ sRace0.queue = [5] ∧ sRace1.queue = [] ∧
    sRace1.workers = [WStatus.busy 5] := by
  refine ⟨?_, rfl, rfl, rfl, rfl⟩
  refine List.chain'_cons.mpr ⟨?_, List.chain'_pair.mpr ?_⟩
  · exact Step.deq sRace0 0 5 [] rfl rfl
  · exact Step.finish sRace1 0 5 rfl

/-- C5 (amended): along every interleaved execution the stop flag is
monotonic: once true it is never cleared; it can turn from false to true
only at a step where some worker completes a successfully fetched page
that parsed to zero items, and that transition happens at most once per
trace; a worker whose loop check sees the set flag exits without
dequeuing — entering the dequeue-bound `passed` state requires the flag
to be unset at the check — and a set flag stops the enqueue loop.  The
original claim's stronger "no further page dispatch after the flag is
set" fails: a worker already past its check may still dequeue and fetch
one page (see the counterexample). -/
theorem claim_C5_stop_flag_monotonic (env : Nat → FetchResult)
    (ts : List SysState) (hc : List.Chain' (Step env) ts) :
    (∀ (i j : Nat) (si sj : SysState), i ≤ j →
        ts[i]? = some si → ts[j]? = some sj →
        si.scr.stop = true → sj.scr.stop = true) ∧
    (∀ (j : Nat) (sj sj1 : SysState), ts[j]? = some sj →
        ts[j + 1]? = some sj1 →
        sj.scr.stop = false → sj1.scr.stop = true →
        ∃ (i pg : Nat), sj.workers[i]? = some (WStatus.busy pg) ∧
          env pg = FetchResult.ok []) ∧
    (∀ (j k : Nat) (sj sj1 sk sk1 : SysState), ts[j]? = some sj →
        ts[j + 1]? = some sj1 →
        ts[k]? = some sk → ts[k + 1]? = some sk1 →
        sj.scr.stop = false → sj1.scr.stop = true →
        sk.scr.stop = false → sk1.scr.stop = true → j = k) ∧
    (∀ (j i : Nat) (sj sj1 : SysState), ts[j]? = some sj →
        ts[j + 1]? = some sj1 →
        sj.workers[i]? = some WStatus.idle →
        sj1.workers[i]? = some WStatus.passed →
        sj.scr.stop = false) ∧
    (∀ (fuel p : Nat), enqueueLoop true fuel p = []) := by
  refine ⟨trace_stop_mono hc, ?_, ?_, ?_, ?_⟩
  · intro j sj sj1 hj hj1 h0 h1
    exact step_flip (chain_rel hc j sj sj1 hj hj1) h0 h1
  · intro j k sj sj1 sk sk1 hj hj1 hk hk1 hj0 hj1t hk0 hk1t
    rcases Nat.lt_trichotomy j k with h | h | h
    · have hmono := trace_stop_mono hc (j + 1) k sj1 sk h hj1 hk hj1t
      rw [hmono] at hk0
      cases hk0
    · exact h
    · have hmono := trace_stop_mono hc (k + 1) j sk1 sj h hk1 hj hk1t
      rw [hmono] at hj0
      cases hj0
  · intro j i sj sj1 hj hj1 hw hp
    exact step_check_passed (chain_rel hc j sj sj1 hj hj1) hw hp
  · intro fuel p
    cases fuel with
    | zero => rfl
    | succ f => simp [enqueueLoop]

/-- C5 witness: the amended statement over a concrete three-step trace in
which a worker checks the unset flag, dequeues page 1 and finishes it,
whereupon the empty page sets the flag. -/
theorem claim_C5_witness :
    (∀ (i j : Nat) (si sj : SysState), i ≤ j →
        wtrace[i]? = some si → wtrace[j]? = some sj →
        si.scr.stop = true → sj.scr.stop = true) ∧
    (∀ (j : Nat) (sj sj1 : SysState), wtrace[j]? = some sj →
        wtrace[j + 1]? = some sj1 →
        sj.scr.stop = false → sj1.scr.stop = true →
        ∃ (i pg : Nat), sj.workers[i]? = some (WStatus.busy pg) ∧
          env0 pg = FetchResult.ok []) ∧
    (∀ (j k : Nat) (sj sj1 sk sk1 : SysState), wtrace[j]? = some sj →
        wtrace[j + 1]? = some sj1 →
        wtrace[k]? = some sk → wtrace[k + 1]? = some sk1 →
        sj.scr.stop = false → sj1.scr.stop = true →
        sk.scr.stop = false → sk1.scr.stop = true → j = k) ∧
    (∀ (j i : Nat) (sj sj1 : SysState), wtrace[j]? = some sj →
        wtrace[j + 1]? = some sj1 →
        sj.workers[i]? = some WStatus.idle →
        sj1.workers[i]? = some WStatus.passed →
        sj.scr.stop = false) ∧
    (∀ (fuel p : Nat), enqueueLoop true fuel p = []) :=
  claim_C5_stop_flag_monotonic env0 wtrace
    (List.chain'_cons.mpr ⟨Step.checkPass _ 0 rfl rfl,
      List.chain'_cons.mpr ⟨Step.deq _ 0 1 [] rfl rfl,
        List.chain'_pair.mpr (Step.finish _ 0 1 rfl)⟩⟩)

end ScrapeVideos
